import Mathlib

/-!
Verification of the NeuralKit matrix indexing layer.

The repository consists of two header files, `Sources/Matrix.h` and
`Sources/NeuralKitGPU/Matrix.h`, declaring two shape descriptor structs
(`matrix_t`, `matrix3_t`) and four accessor functions (`matrix_get`,
`matrix_set`, `matrix3_get`, `matrix3_set`) over a caller-owned contiguous
store of 32-bit floats.  The headers only declare the accessors; their
bodies are not part of the repository, so the accessor semantics below are
modelled from the specification.

Elements are modelled as 32-bit IEEE-754 bit patterns (`Float32`): the
accessors perform no floating-point arithmetic, they move one 32-bit value
unaltered, so the bit-pattern model is exact.  The caller-owned store is
modelled as a `List Float32`; out-of-bounds access (undefined behavior in
the source contract) is modelled by `Option`.
-/

/-- Model of one 32-bit IEEE-754 float as its bit pattern (a natural number,
intended < 2^32).  The accessors never compute with float values, so bit
patterns model them exactly; bitwise equality is `Float32` equality. -/
structure Float32 where
  bits : Nat
deriving DecidableEq, Repr

/-- The bit pattern of +0.0. -/
def fPos0 : Float32 := ⟨0⟩

/-- The bit pattern of -0.0 (sign bit set, 0x80000000). -/
def fNeg0 : Float32 := ⟨2147483648⟩

/-- The bit pattern of 7.5 (0x40F00000). -/
def f7_5 : Float32 := ⟨1089470464⟩

/-- The bit pattern of 9.0 (0x41100000). -/
def f9_0 : Float32 := ⟨1091567616⟩

/-- A descriptor of a 2D matrix (`matrix_t` in both headers):
unsigned `width` and `height`. -/
structure matrix_t where
  width : Nat
  height : Nat
deriving DecidableEq, Repr

/-- A descriptor of a 3D matrix (`matrix3_t` in both headers):
unsigned `width`, `height` and `depth`. -/
structure matrix3_t where
  width : Nat
  height : Nat
  depth : Nat
deriving DecidableEq, Repr

/-- Modelled from the spec: the linear offset used by the 2D accessors
(the bodies of `matrix_get`/`matrix_set` are declared but not present in
the repository).  Row-major: `row * width + column`. -/
def matrix_offset (d : matrix_t) (column row : Nat) : Nat :=
  row * d.width + column

/-- Modelled from the spec: the linear offset used by the 3D accessors
(the bodies of `matrix3_get`/`matrix3_set` are declared but not present in
the repository).  Slice-major then row-major:
`(slice * height + row) * width + column`. -/
def matrix3_offset (d : matrix3_t) (column row slice : Nat) : Nat :=
  (slice * d.height + row) * d.width + column

/-- Modelled from the spec: `matrix_get` (body missing from the repository;
only its declaration is in the headers).  Per the spec it returns
`store[row * width + column]`; reading outside the store is undefined
behavior, modelled as `none`. -/
def matrix_get (d : matrix_t) (store : List Float32) (column row : Nat) :
    Option Float32 :=
  store[matrix_offset d column row]?

/-- Modelled from the spec: `matrix_set` (body missing from the repository;
only its declaration is in the headers).  Per the spec it writes `value` at
offset `row * width + column`; writing outside the store is undefined
behavior, modelled as `none`. -/
def matrix_set (d : matrix_t) (store : List Float32) (column row : Nat)
    (value : Float32) : Option (List Float32) :=
  if matrix_offset d column row < store.length then
    some (store.set (matrix_offset d column row) value)
  else
    none

/-- Modelled from the spec: `matrix3_get` (body missing from the repository;
only its declaration is in the headers).  Per the spec it returns
`store[(slice * height + row) * width + column]`. -/
def matrix3_get (d : matrix3_t) (store : List Float32)
    (column row slice : Nat) : Option Float32 :=
  store[matrix3_offset d column row slice]?

/-- Modelled from the spec: `matrix3_set` (body missing from the repository;
only its declaration is in the headers).  Per the spec it writes `value` at
offset `(slice * height + row) * width + column`. -/
def matrix3_set (d : matrix3_t) (store : List Float32)
    (column row slice : Nat) (value : Float32) : Option (List Float32) :=
  if matrix3_offset d column row slice < store.length then
    some (store.set (matrix3_offset d column row slice) value)
  else
    none

/-- Shape of scenario S1: Shape2D with width 3 and height 2. -/
def s1shape : matrix_t := ⟨3, 2⟩

/-- Buffer of scenario S1 after `set2D(c=2, r=1, v=7.5)` on a zero buffer
of length 6: `[0, 0, 0, 0, 0, 7.5]`. -/
def s1buf : List Float32 := [fPos0, fPos0, fPos0, fPos0, fPos0, f7_5]

/-- Shape of scenario S3: Shape3D with width 2, height 2, depth 3. -/
def s3shape : matrix3_t := ⟨2, 2, 3⟩

/-- Buffer of scenario S3 after `set3D(c=1, r=0, z=2, v=9.0)` on a zero
buffer of length 12: the value lands at linear offset 9. -/
def s3buf : List Float32 :=
  [fPos0, fPos0, fPos0, fPos0, fPos0, fPos0, fPos0, fPos0, fPos0, f9_0,
   fPos0, fPos0]

/-- The 2D offset of an in-range coordinate is below `width * height`. -/
theorem matrix_offset_lt (d : matrix_t) (c r : Nat)
    (hc : c < d.width) (hr : r < d.height) :
    matrix_offset d c r < d.width * d.height := by
  unfold matrix_offset
  calc r * d.width + c < r * d.width + d.width := by omega
    _ = (r + 1) * d.width := by ring
    _ ≤ d.height * d.width := Nat.mul_le_mul_right _ (by omega)
    _ = d.width * d.height := Nat.mul_comm _ _

/-- The 3D offset of an in-range coordinate is below
`width * height * depth`. -/
theorem matrix3_offset_lt (d : matrix3_t) (c r z : Nat)
    (hc : c < d.width) (hr : r < d.height) (hz : z < d.depth) :
    matrix3_offset d c r z < d.width * d.height * d.depth := by
  unfold matrix3_offset
  calc (z * d.height + r) * d.width + c
      < (z * d.height + r) * d.width + d.width := by omega
    _ = (z * d.height + r + 1) * d.width := by ring
    _ ≤ (d.height * d.depth) * d.width := by
        refine Nat.mul_le_mul_right _ ?_
        calc z * d.height + r + 1 ≤ z * d.height + d.height := by omega
          _ = (z + 1) * d.height := by ring
          _ ≤ d.depth * d.height := Nat.mul_le_mul_right _ (by omega)
          _ = d.height * d.depth := Nat.mul_comm _ _
    _ = d.width * d.height * d.depth := by ring

/-- The 2D offset map is injective on in-range columns (rows may be
arbitrary): equal offsets force equal coordinates. -/
theorem matrix_offset_inj (d : matrix_t) (c r c' r' : Nat)
    (hc : c < d.width) (hc' : c' < d.width)
    (h : matrix_offset d c r = matrix_offset d c' r') : c = c' ∧ r = r' := by
  unfold matrix_offset at h
  have hcc : c = c' := by
    have h1 : (r * d.width + c) % d.width = (r' * d.width + c') % d.width :=
      by rw [h]
    rwa [Nat.mul_add_mod_of_lt hc, Nat.mul_add_mod_of_lt hc'] at h1
  subst hcc
  have hw : 0 < d.width := by omega
  refine ⟨rfl, ?_⟩
  have h2 : r * d.width = r' * d.width := by omega
  exact Nat.eq_of_mul_eq_mul_right hw h2

/-- The 3D offset map is injective on in-range columns and rows (slices may
be arbitrary): equal offsets force equal coordinate triples. -/
theorem matrix3_offset_inj (d : matrix3_t) (c r z c' r' z' : Nat)
    (hc : c < d.width) (hc' : c' < d.width)
    (hr : r < d.height) (hr' : r' < d.height)
    (h : matrix3_offset d c r z = matrix3_offset d c' r' z') :
    c = c' ∧ r = r' ∧ z = z' := by
  have h1 : matrix_offset ⟨d.width, d.height⟩ c (z * d.height + r) =
      matrix_offset ⟨d.width, d.height⟩ c' (z' * d.height + r') := h
  obtain ⟨hcc, hrows⟩ :=
    matrix_offset_inj ⟨d.width, d.height⟩ c (z * d.height + r)
      c' (z' * d.height + r') hc hc' h1
  have h2 : matrix_offset ⟨d.height, d.depth⟩ r z =
      matrix_offset ⟨d.height, d.depth⟩ r' z' := hrows
  obtain ⟨hrr, hzz⟩ :=
    matrix_offset_inj ⟨d.height, d.depth⟩ r z r' z' hr hr' h2
  exact ⟨hcc, hrr, hzz⟩

/-- The 3D offset map is surjective onto the initial segment of length
`width * height * depth`: every linear index is the offset of an in-range
coordinate triple. -/
theorem matrix3_offset_surj (d : matrix3_t) (n : Nat)
    (hw : 0 < d.width) (hh : 0 < d.height)
    (hn : n < d.width * d.height * d.depth) :
    ∃ c r z, c < d.width ∧ r < d.height ∧ z < d.depth ∧
      matrix3_offset d c r z = n := by
  refine ⟨n % d.width, (n / d.width) % d.height, n / (d.width * d.height),
    Nat.mod_lt _ hw, Nat.mod_lt _ hh, ?_, ?_⟩
  · have hwh : 0 < d.width * d.height := Nat.mul_pos hw hh
    rw [Nat.div_lt_iff_lt_mul hwh]
    calc n < d.width * d.height * d.depth := hn
      _ = d.depth * (d.width * d.height) := by ring
  · unfold matrix3_offset
    rw [← Nat.div_div_eq_div_mul]
    have hA := Nat.div_add_mod (n / d.width) d.height
    have hB := Nat.div_add_mod n d.width
    calc (n / d.width / d.height * d.height + n / d.width % d.height) *
          d.width + n % d.width
        = d.width * (d.height * (n / d.width / d.height) +
            n / d.width % d.height) + n % d.width := by ring
      _ = d.width * (n / d.width) + n % d.width := by rw [hA]
      _ = n := hB

/-- Writes `matrix3_offset d c r z` (as a bit pattern) at every in-range
coordinate of `d` via `matrix3_set`, threading the store through `Option`;
used to state the coverage property of the 3D layout. -/
def fill3 (d : matrix3_t) (store : List Float32) : Option (List Float32) :=
  (List.range d.depth).foldl (fun az z =>
    (List.range d.height).foldl (fun ar r =>
      (List.range d.width).foldl (fun ac c =>
        ac.bind fun buf =>
          matrix3_set d buf c r z (Float32.mk (matrix3_offset d c r z)))
        ar) az) (some store)

/-- Claim C1: for every Shape2D with positive dimensions, every store of
length at least `width * height` and every in-range coordinate, `matrix_get`
returns the element of the store at linear index `row * width + column`
(the index is in bounds, so the read is `some`); and in scenario S1
(Shape2D 3x2, zero buffer of length 6, `set2D(2, 1, 7.5)`), `get2D(2, 1)`
returns 7.5 and the buffer equals `[0, 0, 0, 0, 0, 7.5]`. -/
theorem matrix_get_rowmajor_and_S1 :
    (∀ (d : matrix_t) (store : List Float32) (c r : Nat),
        1 ≤ d.width → 1 ≤ d.height → d.width * d.height ≤ store.length →
        c < d.width → r < d.height →
        r * d.width + c < store.length ∧
        matrix_get d store c r = store[r * d.width + c]?) ∧
    matrix_set s1shape (List.replicate 6 fPos0) 2 1 f7_5 = some s1buf ∧
    matrix_get s1shape s1buf 2 1 = some f7_5 ∧
    s1buf = [fPos0, fPos0, fPos0, fPos0, fPos0, f7_5] := by
  refine ⟨?_, by decide, by decide, rfl⟩
  intro d store c r hw hh hlen hc hr
  exact ⟨lt_of_lt_of_le (matrix_offset_lt d c r hc hr) hlen, rfl⟩

/-- Witness for C1: the universal part of `matrix_get_rowmajor_and_S1`
instantiated at scenario S1's shape, buffer and coordinate. -/
theorem matrix_get_rowmajor_and_S1_witness :
    1 * 3 + 2 < 6 ∧ matrix_get s1shape s1buf 2 1 = s1buf[1 * 3 + 2]? :=
  matrix_get_rowmajor_and_S1.1 s1shape s1buf 2 1 (by decide) (by decide)
    (by decide) (by decide) (by decide)

/-- Claim C2: for every Shape3D with positive dimensions, every store of
length at least `width * height * depth` and every in-range coordinate
triple, `matrix3_get` returns the element of the store at linear index
`(slice * height + row) * width + column`; and in scenario S3
(Shape3D 2x2x3, zero buffer of length 12, `set3D(1, 0, 2, 9.0)`), the write
lands at linear offset 9, so the buffer holds 9.0 at index 9 afterwards. -/
theorem matrix3_get_slicemajor_and_S3 :
    (∀ (d : matrix3_t) (store : List Float32) (c r z : Nat),
        1 ≤ d.width → 1 ≤ d.height → 1 ≤ d.depth →
        d.width * d.height * d.depth ≤ store.length →
        c < d.width → r < d.height → z < d.depth →
        (z * d.height + r) * d.width + c < store.length ∧
        matrix3_get d store c r z =
          store[(z * d.height + r) * d.width + c]?) ∧
    matrix3_offset s3shape 1 0 2 = 9 ∧
    matrix3_set s3shape (List.replicate 12 fPos0) 1 0 2 f9_0 = some s3buf ∧
    s3buf[9]? = some f9_0 := by
  refine ⟨?_, by decide, by decide, by decide⟩
  intro d store c r z hw hh hd hlen hc hr hz
  exact ⟨lt_of_lt_of_le (matrix3_offset_lt d c r z hc hr hz) hlen, rfl⟩

/-- Witness for C2: the universal part of `matrix3_get_slicemajor_and_S3`
instantiated at scenario S3's shape, buffer and coordinate. -/
theorem matrix3_get_slicemajor_and_S3_witness :
    (2 * 2 + 0) * 2 + 1 < 12 ∧
    matrix3_get s3shape s3buf 1 0 2 = s3buf[(2 * 2 + 0) * 2 + 1]? :=
  matrix3_get_slicemajor_and_S3.1 s3shape s3buf 1 0 2 (by decide) (by decide)
    (by decide) (by decide) (by decide) (by decide) (by decide)

/-- Claim C3: slice equivalence.  For every Shape3D, store and in-range
coordinate, `matrix3_get` at `(c, r, z)` equals `matrix_get` on the 2D shape
`(width, height)` applied to the sub-store starting at offset
`z * width * height` — each slice is a contiguous row-major 2D matrix. -/
theorem matrix3_get_slice_equiv (d : matrix3_t) (store : List Float32)
    (c r z : Nat) (hc : c < d.width) (hr : r < d.height) (hz : z < d.depth) :
    matrix3_get d store c r z =
      matrix_get ⟨d.width, d.height⟩
        (store.drop (z * (d.width * d.height))) c r := by
  unfold matrix3_get matrix_get matrix3_offset matrix_offset
  rw [List.getElem?_drop]
  congr 1
  ring

/-- Witness for C3: slice equivalence at scenario S3's shape and buffer,
coordinate (1, 0, 2). -/
theorem matrix3_get_slice_equiv_witness :
    matrix3_get s3shape s3buf 1 0 2 =
      matrix_get ⟨2, 2⟩ (s3buf.drop (2 * (2 * 2))) 1 0 :=
  matrix3_get_slice_equiv s3shape s3buf 1 0 2 (by decide) (by decide)
    (by decide)

/-- Claim C4: round-trip.  Under the preconditions, `matrix_set` succeeds
and an immediately following `matrix_get` at the same coordinate returns
the written value; likewise for `matrix3_set` / `matrix3_get`. -/
theorem set_get_roundtrip :
    (∀ (d : matrix_t) (store : List Float32) (c r : Nat) (v : Float32),
        1 ≤ d.width → 1 ≤ d.height → d.width * d.height ≤ store.length →
        c < d.width → r < d.height →
        ∃ store', matrix_set d store c r v = some store' ∧
          matrix_get d store' c r = some v) ∧
    (∀ (d : matrix3_t) (store : List Float32) (c r z : Nat) (v : Float32),
        1 ≤ d.width → 1 ≤ d.height → 1 ≤ d.depth →
        d.width * d.height * d.depth ≤ store.length →
        c < d.width → r < d.height → z < d.depth →
        ∃ store', matrix3_set d store c r z v = some store' ∧
          matrix3_get d store' c r z = some v) := by
  constructor
  · intro d store c r v hw hh hlen hc hr
    have hlt : matrix_offset d c r < store.length :=
      lt_of_lt_of_le (matrix_offset_lt d c r hc hr) hlen
    refine ⟨store.set (matrix_offset d c r) v, ?_, ?_⟩
    · unfold matrix_set
      rw [if_pos hlt]
    · unfold matrix_get
      exact List.getElem?_set_eq_of_lt v hlt
  · intro d store c r z v hw hh hd hlen hc hr hz
    have hlt : matrix3_offset d c r z < store.length :=
      lt_of_lt_of_le (matrix3_offset_lt d c r z hc hr hz) hlen
    refine ⟨store.set (matrix3_offset d c r z) v, ?_, ?_⟩
    · unfold matrix3_set
      rw [if_pos hlt]
    · unfold matrix3_get
      exact List.getElem?_set_eq_of_lt v hlt

/-- Witness for C4: both round-trips instantiated at the scenario S1 and S3
shapes on zero buffers. -/
theorem set_get_roundtrip_witness :
    (∃ store', matrix_set s1shape (List.replicate 6 fPos0) 2 1 f7_5 =
        some store' ∧ matrix_get s1shape store' 2 1 = some f7_5) ∧
    (∃ store', matrix3_set s3shape (List.replicate 12 fPos0) 1 0 2 f9_0 =
        some store' ∧ matrix3_get s3shape store' 1 0 2 = some f9_0) :=
  ⟨set_get_roundtrip.1 s1shape (List.replicate 6 fPos0) 2 1 f7_5 (by decide)
      (by decide) (by decide) (by decide) (by decide),
   set_get_roundtrip.2 s3shape (List.replicate 12 fPos0) 1 0 2 f9_0
      (by decide) (by decide) (by decide) (by decide) (by decide) (by decide)
      (by decide)⟩

/-- Claim C5: non-interference (frame condition).  A successful
`matrix_set` at `(c, r)` leaves the element at every other in-range
coordinate `(c', r')` unchanged, and likewise `matrix3_set` for every
in-range triple different from `(c, r, z)`. -/
theorem set_frame :
    (∀ (d : matrix_t) (store : List Float32) (c r : Nat) (v : Float32)
        (c' r' : Nat),
        c < d.width → r < d.height → c' < d.width → r' < d.height →
        (c', r') ≠ (c, r) →
        ∀ store', matrix_set d store c r v = some store' →
          matrix_get d store' c' r' = matrix_get d store c' r') ∧
    (∀ (d : matrix3_t) (store : List Float32) (c r z : Nat) (v : Float32)
        (c' r' z' : Nat),
        c < d.width → r < d.height → z < d.depth →
        c' < d.width → r' < d.height → z' < d.depth →
        (c', r', z') ≠ (c, r, z) →
        ∀ store', matrix3_set d store c r z v = some store' →
          matrix3_get d store' c' r' z' = matrix3_get d store c' r' z') := by
  constructor
  · intro d store c r v c' r' hc hr hc' hr' hpair store' hset
    unfold matrix_set at hset
    by_cases hlt : matrix_offset d c r < store.length
    · rw [if_pos hlt] at hset
      have hst : store' = store.set (matrix_offset d c r) v :=
        (Option.some.inj hset).symm
      subst hst
      have hne : matrix_offset d c r ≠ matrix_offset d c' r' := by
        intro he
        obtain ⟨hcc, hrr⟩ := matrix_offset_inj d c r c' r' hc hc' he
        exact hpair (by rw [← hcc, ← hrr])
      unfold matrix_get
      exact List.getElem?_set_ne hne
    · rw [if_neg hlt] at hset
      exact absurd hset (by simp)
  · intro d store c r z v c' r' z' hc hr hz hc' hr' hz' htriple store' hset
    unfold matrix3_set at hset
    by_cases hlt : matrix3_offset d c r z < store.length
    · rw [if_pos hlt] at hset
      have hst : store' = store.set (matrix3_offset d c r z) v :=
        (Option.some.inj hset).symm
      subst hst
      have hne : matrix3_offset d c r z ≠ matrix3_offset d c' r' z' := by
        intro he
        obtain ⟨hcc, hrr, hzz⟩ :=
          matrix3_offset_inj d c r z c' r' z' hc hc' hr hr' he
        exact htriple (by rw [← hcc, ← hrr, ← hzz])
      unfold matrix3_get
      exact List.getElem?_set_ne hne
    · rw [if_neg hlt] at hset
      exact absurd hset (by simp)

/-- Witness for C5: on scenario S1, setting `(2, 1)` does not change the
element read at `(0, 0)`; on scenario S3, setting `(1, 0, 2)` does not
change the element read at `(0, 0, 0)`. -/
theorem set_frame_witness :
    matrix_get s1shape s1buf 0 0 =
      matrix_get s1shape (List.replicate 6 fPos0) 0 0 ∧
    matrix3_get s3shape s3buf 0 0 0 =
      matrix3_get s3shape (List.replicate 12 fPos0) 0 0 0 :=
  ⟨set_frame.1 s1shape (List.replicate 6 fPos0) 2 1 f7_5 0 0 (by decide)
      (by decide) (by decide) (by decide) (by decide) s1buf (by decide),
   set_frame.2 s3shape (List.replicate 12 fPos0) 1 0 2 f9_0 0 0 0
      (by decide) (by decide) (by decide) (by decide) (by decide) (by decide)
      (by decide) s3buf (by decide)⟩

set_option maxRecDepth 4000 in
/-- Claim C6: the 3D offset map is a bijection from in-range coordinates
onto the initial segment of linear indices: it is injective (in-range), it
lands below `width * height * depth`, and every such linear index is hit.
On Shape3D 5x7x3 every offset lies in `[0, 104]`, and writing the offset
value at every coordinate via `matrix3_set` and then reading the store
linearly yields the sequence `0, 1, 2, ..., 104`. -/
theorem matrix3_offset_bijection :
    (∀ (d : matrix3_t) (c r z c' r' z' : Nat),
        c < d.width → c' < d.width → r < d.height → r' < d.height →
        matrix3_offset d c r z = matrix3_offset d c' r' z' →
        c = c' ∧ r = r' ∧ z = z') ∧
    (∀ (d : matrix3_t) (c r z : Nat),
        c < d.width → r < d.height → z < d.depth →
        matrix3_offset d c r z < d.width * d.height * d.depth) ∧
    (∀ (d : matrix3_t) (n : Nat), 0 < d.width → 0 < d.height →
        n < d.width * d.height * d.depth →
        ∃ c r z, c < d.width ∧ r < d.height ∧ z < d.depth ∧
          matrix3_offset d c r z = n) ∧
    (∀ c r z : Nat, c < 5 → r < 7 → z < 3 →
        matrix3_offset ⟨5, 7, 3⟩ c r z < 105) ∧
    fill3 ⟨5, 7, 3⟩ (List.replicate 105 fPos0) =
      some ((List.range 105).map Float32.mk) := by
  refine ⟨matrix3_offset_inj, matrix3_offset_lt, matrix3_offset_surj,
    ?_, by decide⟩
  intro c r z hc hr hz
  exact matrix3_offset_lt ⟨5, 7, 3⟩ c r z hc hr hz

/-- Witness for C6: injectivity, range bound and surjectivity of
`matrix3_offset_bijection` instantiated on the Shape3D 5x7x3 of scenario
S6 at concrete coordinates. -/
theorem matrix3_offset_bijection_witness :
    ((4 : Nat) = 4 ∧ (6 : Nat) = 6 ∧ (2 : Nat) = 2) ∧
    matrix3_offset ⟨5, 7, 3⟩ 4 6 2 < 5 * 7 * 3 ∧
    (∃ c r z, c < 5 ∧ r < 7 ∧ z < 3 ∧
      matrix3_offset (matrix3_t.mk 5 7 3) c r z = 104) ∧
    matrix3_offset ⟨5, 7, 3⟩ 4 6 2 < 105 :=
  ⟨matrix3_offset_bijection.1 ⟨5, 7, 3⟩ 4 6 2 4 6 2 (by decide) (by decide)
      (by decide) (by decide) (by decide),
   matrix3_offset_bijection.2.1 ⟨5, 7, 3⟩ 4 6 2 (by decide) (by decide)
      (by decide),
   matrix3_offset_bijection.2.2.1 ⟨5, 7, 3⟩ 104 (by decide) (by decide)
      (by decide),
   matrix3_offset_bijection.2.2.2.1 4 6 2 (by decide) (by decide)
      (by decide)⟩

/-- Claim C7: determinism of get.  Two calls of `matrix_get` (or
`matrix3_get`) with the same arguments against an unchanged store return
the same result; equality of `Float32` values is bitwise equality. -/
theorem get_deterministic :
    (∀ (d : matrix_t) (store store' : List Float32) (c r : Nat),
        store = store' →
        matrix_get d store c r = matrix_get d store' c r) ∧
    (∀ (d : matrix3_t) (store store' : List Float32) (c r z : Nat),
        store = store' →
        matrix3_get d store c r z = matrix3_get d store' c r z) :=
  ⟨fun d store store' c r h => by rw [h],
   fun d store store' c r z h => by rw [h]⟩

/-- Witness for C7: determinism instantiated at scenario S1 and S3. -/
theorem get_deterministic_witness :
    matrix_get s1shape s1buf 2 1 = matrix_get s1shape s1buf 2 1 ∧
    matrix3_get s3shape s3buf 1 0 2 = matrix3_get s3shape s3buf 1 0 2 :=
  ⟨get_deterministic.1 s1shape s1buf s1buf 2 1 rfl,
   get_deterministic.2 s3shape s3buf s3buf 1 0 2 rfl⟩

/-- Claim C8: bit-level value preservation.  On Shape2D 1x1 with a
one-element store, `set2D(0, 0, -0.0)` followed by `get2D(0, 0)` returns a
float whose bit pattern is exactly that of negative zero (0x80000000),
which differs from the bit pattern of +0.0. -/
theorem neg_zero_bit_preserved :
    matrix_set ⟨1, 1⟩ [fPos0] 0 0 fNeg0 = some [fNeg0] ∧
    matrix_get ⟨1, 1⟩ [fNeg0] 0 0 = some fNeg0 ∧
    fNeg0.bits = 2147483648 ∧ fNeg0 ≠ fPos0 := by
  decide

/-- Claim C9: totality on the valid domain.  Under the preconditions
(positive dimensions, store long enough, in-range coordinates), each of the
four accessors returns a value: the gets are `some` and the sets succeed,
reaching no out-of-bounds branch. -/
theorem accessors_total :
    (∀ (d : matrix_t) (store : List Float32) (c r : Nat) (v : Float32),
        1 ≤ d.width → 1 ≤ d.height → d.width * d.height ≤ store.length →
        c < d.width → r < d.height →
        (matrix_get d store c r).isSome = true ∧
        (matrix_set d store c r v).isSome = true) ∧
    (∀ (d : matrix3_t) (store : List Float32) (c r z : Nat) (v : Float32),
        1 ≤ d.width → 1 ≤ d.height → 1 ≤ d.depth →
        d.width * d.height * d.depth ≤ store.length →
        c < d.width → r < d.height → z < d.depth →
        (matrix3_get d store c r z).isSome = true ∧
        (matrix3_set d store c r z v).isSome = true) := by
  constructor
  · intro d store c r v hw hh hlen hc hr
    have hlt : matrix_offset d c r < store.length :=
      lt_of_lt_of_le (matrix_offset_lt d c r hc hr) hlen
    constructor
    · unfold matrix_get
      rw [List.getElem?_eq_getElem hlt]
      rfl
    · unfold matrix_set
      rw [if_pos hlt]
      rfl
  · intro d store c r z v hw hh hd hlen hc hr hz
    have hlt : matrix3_offset d c r z < store.length :=
      lt_of_lt_of_le (matrix3_offset_lt d c r z hc hr hz) hlen
    constructor
    · unfold matrix3_get
      rw [List.getElem?_eq_getElem hlt]
      rfl
    · unfold matrix3_set
      rw [if_pos hlt]
      rfl

/-- Witness for C9: totality instantiated at scenario S1 and S3 buffers. -/
theorem accessors_total_witness :
    ((matrix_get s1shape s1buf 2 1).isSome = true ∧
      (matrix_set s1shape s1buf 2 1 f7_5).isSome = true) ∧
    ((matrix3_get s3shape s3buf 1 0 2).isSome = true ∧
      (matrix3_set s3shape s3buf 1 0 2 f9_0).isSome = true) :=
  ⟨accessors_total.1 s1shape s1buf 2 1 f7_5 (by decide) (by decide)
      (by decide) (by decide) (by decide),
   accessors_total.2 s3shape s3buf 1 0 2 f9_0 (by decide) (by decide)
      (by decide) (by decide) (by decide) (by decide) (by decide)⟩

/-- Identifiers appearing in the declarations of the two header files. -/
inductive CName where
  | width
  | height
  | depth
  | matrix_t
  | matrix3_t
  | matrix_get
  | matrix_set
  | matrix3_get
  | matrix3_set
  | matrix_descriptor
  | matrix_store
  | column
  | row
  | slice
  | value
deriving DecidableEq, Repr

/-- C types appearing in the declarations of the two header files:
`uint`, `float`, `void`, `const device float*`, `device float*`, and a
named struct type. -/
inductive CType where
  | uint
  | float
  | voidTy
  | constDeviceFloatPtr
  | deviceFloatPtr
  | structTy (n : CName)
deriving DecidableEq, Repr

/-- A struct field or function parameter: a type and a name. -/
structure CParam where
  type : CType
  name : CName
deriving DecidableEq, Repr

/-- A struct declaration: its typedef name and ordered field list. -/
structure CStructDecl where
  name : CName
  fields : List CParam
deriving DecidableEq, Repr

/-- A function prototype: return type, name and ordered parameter list. -/
structure CFunDecl where
  ret : CType
  name : CName
  params : List CParam
deriving DecidableEq, Repr

/-- The declared API of a header: its structs and function prototypes in
order of appearance. -/
structure HeaderAPI where
  structs : List CStructDecl
  funs : List CFunDecl
deriving DecidableEq, Repr

/-- The API declared by `src/Sources/Matrix.h`, transcribed declaration by
declaration. -/
def hostMatrixHeader : HeaderAPI :=
  { structs :=
      [⟨CName.matrix_t,
        [⟨CType.uint, CName.width⟩, ⟨CType.uint, CName.height⟩]⟩,
       ⟨CName.matrix3_t,
        [⟨CType.uint, CName.width⟩, ⟨CType.uint, CName.height⟩,
         ⟨CType.uint, CName.depth⟩]⟩],
    funs :=
      [⟨CType.float, CName.matrix_get,
        [⟨CType.structTy CName.matrix_t, CName.matrix_descriptor⟩,
         ⟨CType.constDeviceFloatPtr, CName.matrix_store⟩,
         ⟨CType.uint, CName.column⟩, ⟨CType.uint, CName.row⟩]⟩,
       ⟨CType.voidTy, CName.matrix_set,
        [⟨CType.structTy CName.matrix_t, CName.matrix_descriptor⟩,
         ⟨CType.deviceFloatPtr, CName.matrix_store⟩,
         ⟨CType.uint, CName.column⟩, ⟨CType.uint, CName.row⟩,
         ⟨CType.float, CName.value⟩]⟩,
       ⟨CType.float, CName.matrix3_get,
        [⟨CType.structTy CName.matrix3_t, CName.matrix_descriptor⟩,
         ⟨CType.constDeviceFloatPtr, CName.matrix_store⟩,
         ⟨CType.uint, CName.column⟩, ⟨CType.uint, CName.row⟩,
         ⟨CType.uint, CName.slice⟩]⟩,
       ⟨CType.voidTy, CName.matrix3_set,
        [⟨CType.structTy CName.matrix3_t, CName.matrix_descriptor⟩,
         ⟨CType.deviceFloatPtr, CName.matrix_store⟩,
         ⟨CType.uint, CName.column⟩, ⟨CType.uint, CName.row⟩,
         ⟨CType.uint, CName.slice⟩, ⟨CType.float, CName.value⟩]⟩] }

/-- The API declared by `src/Sources/NeuralKitGPU/Matrix.h`, transcribed
declaration by declaration (the two files differ only in doc comments). -/
def gpuMatrixHeader : HeaderAPI :=
  { structs :=
      [⟨CName.matrix_t,
        [⟨CType.uint, CName.width⟩, ⟨CType.uint, CName.height⟩]⟩,
       ⟨CName.matrix3_t,
        [⟨CType.uint, CName.width⟩, ⟨CType.uint, CName.height⟩,
         ⟨CType.uint, CName.depth⟩]⟩],
    funs :=
      [⟨CType.float, CName.matrix_get,
        [⟨CType.structTy CName.matrix_t, CName.matrix_descriptor⟩,
         ⟨CType.constDeviceFloatPtr, CName.matrix_store⟩,
         ⟨CType.uint, CName.column⟩, ⟨CType.uint, CName.row⟩]⟩,
       ⟨CType.voidTy, CName.matrix_set,
        [⟨CType.structTy CName.matrix_t, CName.matrix_descriptor⟩,
         ⟨CType.deviceFloatPtr, CName.matrix_store⟩,
         ⟨CType.uint, CName.column⟩, ⟨CType.uint, CName.row⟩,
         ⟨CType.float, CName.value⟩]⟩,
       ⟨CType.float, CName.matrix3_get,
        [⟨CType.structTy CName.matrix3_t, CName.matrix_descriptor⟩,
         ⟨CType.constDeviceFloatPtr, CName.matrix_store⟩,
         ⟨CType.uint, CName.column⟩, ⟨CType.uint, CName.row⟩,
         ⟨CType.uint, CName.slice⟩]⟩,
       ⟨CType.voidTy, CName.matrix3_set,
        [⟨CType.structTy CName.matrix3_t, CName.matrix_descriptor⟩,
         ⟨CType.deviceFloatPtr, CName.matrix_store⟩,
         ⟨CType.uint, CName.column⟩, ⟨CType.uint, CName.row⟩,
         ⟨CType.uint, CName.slice⟩, ⟨CType.float, CName.value⟩]⟩] }

/-- Claim C10: the two header files declare the same API — identical
descriptor structs (same fields, same order, same types) and the same four
function prototypes — so a single embedding (`matrix_t`, `matrix3_t` and
the four accessors above) serves both files. -/
theorem headers_declare_same_api : hostMatrixHeader = gpuMatrixHeader := by
  decide
